import Mathlib

/-!
Verification of the position controller of `rotors_quadrotor_control`
(`src/control/position_controller/include/position_controller/position_controller.h`,
which also carries the `ReferenceInputs` header).

The repository ships only the header declarations; the constants
(`kGravity_`, `kAlmostZeroValueThreshold_`, the drag coefficients
`dx, dy, dz`) and the doc comments of `computeRobustBodyXAxis`,
`computeRobustBodyYAxis` and `computeReferenceOrientation` are taken
from the header, while the missing method bodies are modelled from the
specification and marked `Modelled from the spec:` below.

Floating-point `double` arithmetic is embedded as exact real arithmetic:
Eigen's `Vector3d` becomes `Vec3` over `ℝ` and `Quaterniond` becomes
`Quat` over `ℝ`; "within floating-point tolerance" statements become
exact equalities over `ℝ`.
-/

/-- Embedding of `Eigen::Vector3d`: a world- or body-frame 3-vector. -/
structure Vec3 where
  x : ℝ
  y : ℝ
  z : ℝ


namespace Vec3

/-- Componentwise addition (`Eigen` operator `+`). -/
def add (a b : Vec3) : Vec3 := ⟨a.x + b.x, a.y + b.y, a.z + b.z⟩

/-- Componentwise subtraction (`Eigen` operator `-`). -/
def sub (a b : Vec3) : Vec3 := ⟨a.x - b.x, a.y - b.y, a.z - b.z⟩

/-- Scalar multiple (`Eigen` operator `*` with a scalar). -/
def smul (c : ℝ) (a : Vec3) : Vec3 := ⟨c * a.x, c * a.y, c * a.z⟩

/-- Dot product (`Eigen` `a.dot(b)`). -/
def dot (a b : Vec3) : ℝ := a.x * b.x + a.y * b.y + a.z * b.z

/-- Cross product (`Eigen` `a.cross(b)`). -/
def cross (a b : Vec3) : Vec3 :=
  ⟨a.y * b.z - a.z * b.y, a.z * b.x - a.x * b.z, a.x * b.y - a.y * b.x⟩

/-- Squared Euclidean norm (`Eigen` `a.squaredNorm()`). -/
def normSq (a : Vec3) : ℝ := a.x * a.x + a.y * a.y + a.z * a.z

/-- Euclidean norm (`Eigen` `a.norm()`). -/
noncomputable def norm (a : Vec3) : ℝ := Real.sqrt a.normSq

/-- Normalization (`Eigen` `a.normalized()`). -/
noncomputable def normalize (a : Vec3) : Vec3 := smul (1 / a.norm) a

/-- The zero vector (`Eigen::Vector3d::Zero()`). -/
def zero : Vec3 := ⟨0, 0, 0⟩

end Vec3

/-- Embedding of `Eigen::Quaterniond`: `w` is the scalar part. -/
structure Quat where
  w : ℝ
  x : ℝ
  y : ℝ
  z : ℝ


namespace Quat

/-- Hamilton product (`Eigen` quaternion operator `*`). -/
def mul (p q : Quat) : Quat :=
  ⟨p.w * q.w - p.x * q.x - p.y * q.y - p.z * q.z,
   p.w * q.x + p.x * q.w + p.y * q.z - p.z * q.y,
   p.w * q.y - p.x * q.z + p.y * q.w + p.z * q.x,
   p.w * q.z + p.x * q.y - p.y * q.x + p.z * q.w⟩

/-- Conjugate (`Eigen` `q.conjugate()`, the inverse for a unit quaternion). -/
def conj (q : Quat) : Quat := ⟨q.w, -q.x, -q.y, -q.z⟩

/-- A pure quaternion holding the vector `v`. -/
def ofVec (v : Vec3) : Quat := ⟨0, v.x, v.y, v.z⟩

/-- The vector part of a quaternion. -/
def vec (q : Quat) : Vec3 := ⟨q.x, q.y, q.z⟩

/-- Rotation of a vector by a (unit) quaternion, `q * (0,v) * q.conjugate()`
    (`Eigen` `q * v`). -/
def rotate (q : Quat) (v : Vec3) : Vec3 := ((q.mul (ofVec v)).mul q.conj).vec

/-- The identity quaternion (`Eigen::Quaterniond::Identity()`). -/
def one : Quat := ⟨1, 0, 0, 0⟩

end Quat

/-- Embedding of `quadrotor_common::QuadrotorStateEstimate`: position,
    velocity (world frame), orientation (body→world unit quaternion) and
    body rates (body frame). -/
structure QuadrotorStateEstimate where
  position : Vec3
  velocity : Vec3
  orientation : Quat
  bodyrates : Vec3

/-- Embedding of `quadrotor_common::QuadrotorTrajectoryPoint`: desired
    position, velocity, acceleration and jerk (world frame), desired
    heading angle and heading rate. -/
structure QuadrotorTrajectoryPoint where
  position : Vec3
  velocity : Vec3
  acceleration : Vec3
  jerk : Vec3
  heading : ℝ
  heading_rate : ℝ

/-- The commanded body frame `[x_B, y_B, z_B]` (columns of the body→world
    rotation matrix), the orientation part of the control command. -/
structure BodyFrame where
  x_B : Vec3
  y_B : Vec3
  z_B : Vec3

/-- Embedding of `quadrotor_common::QuadrotorControlCommand`: desired
    orientation (as the orthonormal body-frame triad), collective thrust,
    body rates and angular acceleration. -/
structure QuadrotorControlCommand where
  orientation : BodyFrame
  collective_thrust : ℝ
  bodyrates : Vec3
  angular_acceleration : Vec3

namespace ReferenceInputs

/-- `kGravity_` from the header: the gravity acting in the negative `z_W`
    direction, `kGravity_ = (0.0, 0.0, -9.81)`. -/
def kGravity_ : Vec3 := ⟨0, 0, -9.81⟩

/-- `kAlmostZeroValueThreshold_` from the header: the almost-zero value
    threshold, `0.001`. -/
def kAlmostZeroValueThreshold_ : ℝ := 0.001

/-- Rotor drag constant `dx` from the header (`double dx = 0`). -/
def dx : ℝ := 0

/-- Rotor drag constant `dy` from the header (`double dy = 0`). -/
def dy : ℝ := 0

/-- Rotor drag constant `dz` from the header (`double dz = 0`). -/
def dz : ℝ := 0

/-- Modelled from the spec: the rotor-drag compensation term of the
    flatness inversion, missing from `src` (only declared through the
    drag constants).  It applies the per-axis drag coefficients to the
    reference velocity expressed in the current best-estimate body frame
    and maps the result back to the world frame. -/
def dragTerm (q : Quat) (v : Vec3) : Vec3 :=
  let vB := q.conj.rotate v
  q.rotate ⟨dx * vB.x, dy * vB.y, dz * vB.z⟩

/-- Modelled from the spec: the commanded world-frame acceleration vector
    `alpha = reference.acceleration - gravity - drag_term(reference.velocity)`
    of the flatness inversion, whose body is missing from `src`. -/
def alpha (state_estimate : QuadrotorStateEstimate)
    (reference_state : QuadrotorTrajectoryPoint) : Vec3 :=
  (reference_state.acceleration.sub kGravity_).sub
    (dragTerm state_estimate.orientation reference_state.velocity)

/-- Modelled from the spec: the secondary heading-encoding vector `beta`
    of the flatness inversion, derived analogously to `alpha`; its drag
    correction uses the same coefficients `dx, dy, dz`, all zero, so it
    coincides with `alpha`. -/
def beta (state_estimate : QuadrotorStateEstimate)
    (reference_state : QuadrotorTrajectoryPoint) : Vec3 :=
  (reference_state.acceleration.sub kGravity_).sub
    (dragTerm state_estimate.orientation reference_state.velocity)

/-- Modelled from the spec: the intermediate-frame axis
    `x_C = (cos psi, sin psi, 0)` built from the desired heading angle,
    declared in the header (`Eigen::Vector3d x_C`) without a body. -/
noncomputable def x_C (psi : ℝ) : Vec3 := ⟨Real.cos psi, Real.sin psi, 0⟩

/-- Modelled from the spec: the intermediate-frame axis
    `y_C = (-sin psi, cos psi, 0)` built from the desired heading angle,
    declared in the header (`Eigen::Vector3d y_C`) without a body. -/
noncomputable def y_C (psi : ℝ) : Vec3 := ⟨-Real.sin psi, Real.cos psi, 0⟩

/-- Modelled from the spec: the body of `computeRobustBodyXAxis`, missing
    from `src` (the header declares it with the contract
    `x_B = (y_C x alpha)`, falling back to `x_B = x_C` when `y_C` is
    aligned with `alpha` or `alpha = 0`).  The nominal result is
    `normalize(y_C x alpha)`; when `|y_C x alpha|` falls below
    `kAlmostZeroValueThreshold_` the fallback `x_C` is returned. -/
noncomputable def computeRobustBodyXAxis (a : Vec3) (psi : ℝ) : Vec3 :=
  if ((y_C psi).cross a).norm < kAlmostZeroValueThreshold_ then x_C psi
  else ((y_C psi).cross a).normalize

/-- Modelled from the spec: the body of `computeRobustBodyYAxis`, missing
    from `src` (the header declares it with the contract
    `y_B = (beta x x_B)`, falling back to `y_B = y_C` when `x_B` is
    aligned with `beta` or `beta = 0`).  The nominal result is
    `normalize(beta x x_B)`; when `|beta x x_B|` falls below
    `kAlmostZeroValueThreshold_` the fallback `y_C` is returned. -/
noncomputable def computeRobustBodyYAxis (b xB : Vec3) (psi : ℝ) : Vec3 :=
  if (b.cross xB).norm < kAlmostZeroValueThreshold_ then y_C psi
  else (b.cross xB).normalize

/-- Modelled from the spec: the body of `computeReferenceOrientation`,
    missing from `src` (the header declares it as computing the robust
    reference orientation `R = [x_B, y_B, z_B]` via the two robust axis
    computations).  `z_B = x_B x y_B` re-orthonormalizes the triad. -/
noncomputable def computeReferenceOrientation
    (state_estimate : QuadrotorStateEstimate)
    (reference_state : QuadrotorTrajectoryPoint) : BodyFrame :=
  let a := alpha state_estimate reference_state
  let xB := computeRobustBodyXAxis a reference_state.heading
  let yB := computeRobustBodyYAxis (beta state_estimate reference_state) xB
    reference_state.heading
  ⟨xB, yB, xB.cross yB⟩

/-- Modelled from the spec: the collective thrust command, missing from
    `src`; the magnitude of `alpha` projected onto `z_B`. -/
noncomputable def collectiveThrust (state_estimate : QuadrotorStateEstimate)
    (reference_state : QuadrotorTrajectoryPoint) : ℝ :=
  (alpha state_estimate reference_state).dot
    (computeReferenceOrientation state_estimate reference_state).z_B

/-- Modelled from the spec: the reference body rates, missing from `src`;
    obtained by differentiating the orientation/thrust solution: the jerk
    feeds the tilt rates through the thrust magnitude and the heading rate
    feeds the yaw rate through the `z_B` axis (zero-drag
    differential-flatness derivative). -/
noncomputable def referenceBodyrates (state_estimate : QuadrotorStateEstimate)
    (reference_state : QuadrotorTrajectoryPoint) : Vec3 :=
  let frame := computeReferenceOrientation state_estimate reference_state
  let c := collectiveThrust state_estimate reference_state
  ⟨-(frame.y_B.dot reference_state.jerk) / c,
   (frame.x_B.dot reference_state.jerk) / c,
   reference_state.heading_rate * ((Vec3.mk 0 0 1).dot frame.z_B)⟩

/-- Modelled from the spec: the reference angular acceleration, missing
    from `src`; it is the next flatness derivative, fed by the trajectory
    derivatives one order above jerk and heading rate (snap, heading
    acceleration), which the trajectory-point data model does not carry,
    so the feed-forward term is the zero vector. -/
def referenceAngularAcceleration : Vec3 := Vec3.zero

end ReferenceInputs

namespace PositionController

/-- Modelled from the spec: the body of `PositionController::run`, missing
    from `src` (declared in the header).  It delegates to the
    reference-input computation and packages orientation, collective
    thrust, body rates and angular acceleration into the command. -/
noncomputable def run (state_estimate : QuadrotorStateEstimate)
    (reference_state : QuadrotorTrajectoryPoint) : QuadrotorControlCommand :=
  ⟨ReferenceInputs.computeReferenceOrientation state_estimate reference_state,
   ReferenceInputs.collectiveThrust state_estimate reference_state,
   ReferenceInputs.referenceBodyrates state_estimate reference_state,
   ReferenceInputs.referenceAngularAcceleration⟩

end PositionController

namespace Vec3

theorem normSq_nonneg (a : Vec3) : 0 ≤ a.normSq := by
  unfold normSq; nlinarith [sq_nonneg a.x, sq_nonneg a.y, sq_nonneg a.z]

theorem norm_nonneg (a : Vec3) : 0 ≤ a.norm := Real.sqrt_nonneg _

theorem normSq_eq_dot (a : Vec3) : a.normSq = a.dot a := by
  unfold normSq dot; ring

theorem dot_comm (a b : Vec3) : a.dot b = b.dot a := by
  unfold dot; ring

theorem cross_dot_left (a b : Vec3) : (a.cross b).dot a = 0 := by
  unfold cross dot; ring

theorem cross_dot_right (a b : Vec3) : (a.cross b).dot b = 0 := by
  unfold cross dot; ring

theorem normSq_cross (a b : Vec3) :
    (a.cross b).normSq = a.normSq * b.normSq - (a.dot b) ^ 2 := by
  unfold cross normSq dot; ring

theorem smul_dot (c : ℝ) (a b : Vec3) : (smul c a).dot b = c * (a.dot b) := by
  unfold smul dot; ring

theorem normSq_smul (c : ℝ) (a : Vec3) :
    (smul c a).normSq = c ^ 2 * a.normSq := by
  unfold smul normSq; ring

theorem norm_smul (c : ℝ) (a : Vec3) : (smul c a).norm = |c| * a.norm := by
  unfold norm
  rw [normSq_smul, Real.sqrt_mul (sq_nonneg c), Real.sqrt_sq_eq_abs]

theorem norm_eq_one_of_normSq (a : Vec3) (h : a.normSq = 1) : a.norm = 1 := by
  unfold norm; rw [h, Real.sqrt_one]

theorem normSq_eq_one_of_norm (a : Vec3) (h : a.norm = 1) : a.normSq = 1 := by
  unfold norm at h
  have := Real.sq_sqrt a.normSq_nonneg
  rw [h] at this; simpa using this.symm

theorem norm_normalize (a : Vec3) (h : a.norm ≠ 0) : a.normalize.norm = 1 := by
  unfold normalize
  rw [norm_smul, abs_of_nonneg (div_nonneg zero_le_one a.norm_nonneg)]
  field_simp

theorem normalize_dot (a b : Vec3) (h : a.dot b = 0) : a.normalize.dot b = 0 := by
  unfold normalize
  rw [smul_dot, h, mul_zero]

end Vec3

namespace ReferenceInputs

theorem kAlmostZeroValueThreshold_pos : (0:ℝ) < kAlmostZeroValueThreshold_ := by
  unfold kAlmostZeroValueThreshold_; norm_num

theorem x_C_normSq (psi : ℝ) : (x_C psi).normSq = 1 := by
  unfold x_C Vec3.normSq
  dsimp only
  linear_combination Real.sin_sq_add_cos_sq psi

theorem x_C_norm (psi : ℝ) : (x_C psi).norm = 1 :=
  Vec3.norm_eq_one_of_normSq _ (x_C_normSq psi)

theorem y_C_normSq (psi : ℝ) : (y_C psi).normSq = 1 := by
  unfold y_C Vec3.normSq
  dsimp only
  linear_combination Real.sin_sq_add_cos_sq psi

theorem y_C_norm (psi : ℝ) : (y_C psi).norm = 1 :=
  Vec3.norm_eq_one_of_normSq _ (y_C_normSq psi)

theorem x_C_dot_y_C (psi : ℝ) : (x_C psi).dot (y_C psi) = 0 := by
  unfold x_C y_C Vec3.dot; ring

theorem computeRobustBodyXAxis_norm (a : Vec3) (psi : ℝ) :
    (computeRobustBodyXAxis a psi).norm = 1 := by
  unfold computeRobustBodyXAxis
  split
  · exact x_C_norm psi
  · rename_i h
    push_neg at h
    refine Vec3.norm_normalize _ (fun h0 => ?_)
    rw [h0] at h
    exact absurd (lt_of_lt_of_le kAlmostZeroValueThreshold_pos h) (lt_irrefl 0)

theorem computeRobustBodyXAxis_dot_y_C (a : Vec3) (psi : ℝ) :
    (computeRobustBodyXAxis a psi).dot (y_C psi) = 0 := by
  unfold computeRobustBodyXAxis
  split
  · exact x_C_dot_y_C psi
  · exact Vec3.normalize_dot _ _ (Vec3.cross_dot_left _ _)

theorem computeRobustBodyYAxis_norm (b xB : Vec3) (psi : ℝ) :
    (computeRobustBodyYAxis b xB psi).norm = 1 := by
  unfold computeRobustBodyYAxis
  split
  · exact y_C_norm psi
  · rename_i h
    push_neg at h
    refine Vec3.norm_normalize _ (fun h0 => ?_)
    rw [h0] at h
    exact absurd (lt_of_lt_of_le kAlmostZeroValueThreshold_pos h) (lt_irrefl 0)

theorem computeRobustBodyYAxis_dot (b a : Vec3) (psi : ℝ) :
    (computeRobustBodyYAxis b (computeRobustBodyXAxis a psi) psi).dot
      (computeRobustBodyXAxis a psi) = 0 := by
  unfold computeRobustBodyYAxis
  split
  · rw [Vec3.dot_comm]
    exact computeRobustBodyXAxis_dot_y_C a psi
  · exact Vec3.normalize_dot _ _ (Vec3.cross_dot_right _ _)

/-- Helper: the triad produced by `computeReferenceOrientation` is
    orthonormal and its third axis is the cross product of the first two. -/
theorem referenceOrientation_orthonormal (se : QuadrotorStateEstimate)
    (rs : QuadrotorTrajectoryPoint) :
    let f := computeReferenceOrientation se rs
    f.x_B.norm = 1 ∧ f.y_B.norm = 1 ∧ f.z_B.norm = 1 ∧
    f.x_B.dot f.y_B = 0 ∧ f.x_B.dot f.z_B = 0 ∧ f.y_B.dot f.z_B = 0 ∧
    f.z_B = f.x_B.cross f.y_B := by
  intro f
  have hx : f.x_B = computeRobustBodyXAxis (alpha se rs) rs.heading := rfl
  have hy : f.y_B = computeRobustBodyYAxis (beta se rs)
      (computeRobustBodyXAxis (alpha se rs) rs.heading) rs.heading := rfl
  have hz : f.z_B = f.x_B.cross f.y_B := rfl
  have hxn : f.x_B.norm = 1 := by rw [hx]; exact computeRobustBodyXAxis_norm _ _
  have hyn : f.y_B.norm = 1 := by rw [hy]; exact computeRobustBodyYAxis_norm _ _ _
  have hxy : f.x_B.dot f.y_B = 0 := by
    rw [Vec3.dot_comm, hx, hy]
    exact computeRobustBodyYAxis_dot _ _ _
  have hzn : f.z_B.norm = 1 := by
    refine Vec3.norm_eq_one_of_normSq _ ?_
    rw [hz, Vec3.normSq_cross, Vec3.normSq_eq_one_of_norm _ hxn,
      Vec3.normSq_eq_one_of_norm _ hyn, hxy]
    norm_num
  refine ⟨hxn, hyn, hzn, hxy, ?_, ?_, hz⟩
  · rw [Vec3.dot_comm, hz]
    exact Vec3.cross_dot_left _ _
  · rw [Vec3.dot_comm, hz]
    exact Vec3.cross_dot_right _ _

end ReferenceInputs

namespace Vec3

theorem norm_zero_vec : (Vec3.zero).norm = 0 := by
  unfold zero norm normSq
  dsimp only
  rw [show (0:ℝ) * 0 + 0 * 0 + 0 * 0 = 0 by ring, Real.sqrt_zero]

theorem cross_zero (a : Vec3) : a.cross Vec3.zero = Vec3.zero := by
  unfold cross zero
  dsimp only
  norm_num

theorem zero_cross (a : Vec3) : Vec3.zero.cross a = Vec3.zero := by
  unfold cross zero
  dsimp only
  norm_num

theorem norm_axis_x (a : ℝ) (h : 0 ≤ a) : (Vec3.mk a 0 0).norm = a := by
  unfold norm normSq
  dsimp only
  rw [show a * a + 0 * 0 + 0 * 0 = a * a by ring, Real.sqrt_mul_self h]

theorem norm_axis_y (a : ℝ) (h : 0 ≤ a) : (Vec3.mk 0 a 0).norm = a := by
  unfold norm normSq
  dsimp only
  rw [show (0:ℝ) * 0 + a * a + 0 * 0 = a * a by ring, Real.sqrt_mul_self h]

theorem sub_zero_vec (a : Vec3) : a.sub Vec3.zero = a := by
  unfold sub zero
  dsimp only
  norm_num

end Vec3

namespace Quat

theorem rotate_zero_vec (q : Quat) : q.rotate (Vec3.mk 0 0 0) = Vec3.mk 0 0 0 := by
  unfold rotate mul ofVec conj vec
  dsimp only
  norm_num

end Quat

namespace ReferenceInputs

/-- Helper: the rotor-drag compensation term vanishes identically because
    the drag coefficients are all zero. -/
theorem dragTerm_eq_zero (q : Quat) (v : Vec3) : dragTerm q v = Vec3.zero := by
  unfold dragTerm dx dy dz
  dsimp only
  rw [show (0:ℝ) * (q.conj.rotate v).x = 0 by ring,
    show (0:ℝ) * (q.conj.rotate v).y = 0 by ring,
    show (0:ℝ) * (q.conj.rotate v).z = 0 by ring]
  exact q.rotate_zero_vec

/-- Helper: with zero drag coefficients, `alpha` is the reference
    acceleration minus gravity. -/
theorem alpha_no_drag (se : QuadrotorStateEstimate)
    (rs : QuadrotorTrajectoryPoint) :
    alpha se rs = rs.acceleration.sub kGravity_ := by
  unfold alpha
  rw [dragTerm_eq_zero, Vec3.sub_zero_vec]

/-- Helper: with zero drag coefficients, `beta` coincides with `alpha`. -/
theorem beta_eq_alpha (se : QuadrotorStateEstimate)
    (rs : QuadrotorTrajectoryPoint) : beta se rs = alpha se rs := rfl

end ReferenceInputs

open ReferenceInputs in
/-- C1: for every input pair (state estimate, reference trajectory point),
    the triad `(x_B, y_B, z_B)` computed by `computeReferenceOrientation`
    is mutually orthogonal and each axis is unit length, with
    `z_B = x_B × y_B` re-orthonormalizing the triad. -/
theorem C1_referenceOrientation_orthonormal (se : QuadrotorStateEstimate)
    (rs : QuadrotorTrajectoryPoint) :
    (computeReferenceOrientation se rs).x_B.norm = 1 ∧
    (computeReferenceOrientation se rs).y_B.norm = 1 ∧
    (computeReferenceOrientation se rs).z_B.norm = 1 ∧
    (computeReferenceOrientation se rs).x_B.dot
      (computeReferenceOrientation se rs).y_B = 0 ∧
    (computeReferenceOrientation se rs).x_B.dot
      (computeReferenceOrientation se rs).z_B = 0 ∧
    (computeReferenceOrientation se rs).y_B.dot
      (computeReferenceOrientation se rs).z_B = 0 ∧
    (computeReferenceOrientation se rs).z_B =
      (computeReferenceOrientation se rs).x_B.cross
        (computeReferenceOrientation se rs).y_B :=
  referenceOrientation_orthonormal se rs

open ReferenceInputs in
/-- C2: `computeRobustBodyXAxis` nominally returns
    `normalize(y_C × alpha)`; when `|y_C × alpha|` falls below the
    near-zero threshold it returns the fallback `x_C`, and in every case
    the result is a unit vector (never near-zero). -/
theorem C2_robustBodyXAxis_nominal_fallback (a : Vec3) (psi : ℝ) :
    (computeRobustBodyXAxis a psi).norm = 1 ∧
    (((y_C psi).cross a).norm < kAlmostZeroValueThreshold_ →
      computeRobustBodyXAxis a psi = x_C psi) ∧
    (kAlmostZeroValueThreshold_ ≤ ((y_C psi).cross a).norm →
      computeRobustBodyXAxis a psi = ((y_C psi).cross a).normalize) := by
  refine ⟨computeRobustBodyXAxis_norm a psi, fun h => ?_, fun h => ?_⟩
  · unfold computeRobustBodyXAxis
    rw [if_pos h]
  · unfold computeRobustBodyXAxis
    rw [if_neg (not_lt.mpr h)]

open ReferenceInputs in
/-- Witness for C2: for `alpha = 0` the cross product is below the
    threshold and the fallback `x_C` is returned. -/
theorem C2_robustBodyXAxis_witness :
    ((y_C 0).cross Vec3.zero).norm < kAlmostZeroValueThreshold_ ∧
    computeRobustBodyXAxis Vec3.zero 0 = x_C 0 := by
  have h : ((y_C 0).cross Vec3.zero).norm < kAlmostZeroValueThreshold_ := by
    rw [Vec3.cross_zero, Vec3.norm_zero_vec]
    exact kAlmostZeroValueThreshold_pos
  exact ⟨h, (C2_robustBodyXAxis_nominal_fallback Vec3.zero 0).2.1 h⟩

open ReferenceInputs in
/-- C3: `computeRobustBodyYAxis` nominally returns
    `normalize(beta × x_B)`; when `|beta × x_B|` falls below the same
    near-zero threshold it returns the fallback `y_C`, and in every case
    the result is a unit vector. -/
theorem C3_robustBodyYAxis_nominal_fallback (b xB : Vec3) (psi : ℝ) :
    (computeRobustBodyYAxis b xB psi).norm = 1 ∧
    ((b.cross xB).norm < kAlmostZeroValueThreshold_ →
      computeRobustBodyYAxis b xB psi = y_C psi) ∧
    (kAlmostZeroValueThreshold_ ≤ (b.cross xB).norm →
      computeRobustBodyYAxis b xB psi = (b.cross xB).normalize) := by
  refine ⟨computeRobustBodyYAxis_norm b xB psi, fun h => ?_, fun h => ?_⟩
  · unfold computeRobustBodyYAxis
    rw [if_pos h]
  · unfold computeRobustBodyYAxis
    rw [if_neg (not_lt.mpr h)]

open ReferenceInputs in
/-- Witness for C3: for `beta = 0` the cross product is below the
    threshold and the fallback `y_C` is returned. -/
theorem C3_robustBodyYAxis_witness :
    (Vec3.zero.cross (Vec3.mk 1 0 0)).norm < kAlmostZeroValueThreshold_ ∧
    computeRobustBodyYAxis Vec3.zero (Vec3.mk 1 0 0) 0 = y_C 0 := by
  have h : (Vec3.zero.cross (Vec3.mk 1 0 0)).norm < kAlmostZeroValueThreshold_ := by
    rw [Vec3.zero_cross, Vec3.norm_zero_vec]
    exact kAlmostZeroValueThreshold_pos
  exact ⟨h, (C3_robustBodyYAxis_nominal_fallback Vec3.zero (Vec3.mk 1 0 0) 0).2.1 h⟩

open ReferenceInputs in
/-- C4: `PositionController::run` is total on well-formed inputs: for every
    (state estimate, reference trajectory point) pair the embedding returns
    a well-formed control command — its orientation triad is orthonormal —
    with every geometric degeneracy resolved by the fallback substitutions
    (no error value exists in the return type). -/
theorem C4_run_total_wellformed (se : QuadrotorStateEstimate)
    (rs : QuadrotorTrajectoryPoint) :
    (PositionController.run se rs).orientation.x_B.norm = 1 ∧
    (PositionController.run se rs).orientation.y_B.norm = 1 ∧
    (PositionController.run se rs).orientation.z_B.norm = 1 ∧
    (PositionController.run se rs).orientation.x_B.dot
      (PositionController.run se rs).orientation.y_B = 0 ∧
    (PositionController.run se rs).orientation.x_B.dot
      (PositionController.run se rs).orientation.z_B = 0 ∧
    (PositionController.run se rs).orientation.y_B.dot
      (PositionController.run se rs).orientation.z_B = 0 :=
  let h := referenceOrientation_orthonormal se rs
  ⟨h.1, h.2.1, h.2.2.1, h.2.2.2.1, h.2.2.2.2.1, h.2.2.2.2.2.1⟩

open ReferenceInputs in
/-- C5: the intermediate C-frame is built purely from the desired heading
    angle: `x_C = (cos psi, sin psi, 0)` and `y_C = (-sin psi, cos psi, 0)`,
    each of unit length; both are functions of the heading angle alone,
    independent of the thrust direction and the estimated orientation. -/
theorem C5_intermediate_frame (psi : ℝ) :
    x_C psi = ⟨Real.cos psi, Real.sin psi, 0⟩ ∧
    y_C psi = ⟨-Real.sin psi, Real.cos psi, 0⟩ ∧
    (x_C psi).norm = 1 ∧ (y_C psi).norm = 1 :=
  ⟨rfl, rfl, x_C_norm psi, y_C_norm psi⟩

/-- The hover state estimate: at rest at the origin, identity attitude,
    zero velocity and body rates. -/
def hoverStateEstimate : QuadrotorStateEstimate :=
  ⟨Vec3.zero, Vec3.zero, Quat.one, Vec3.zero⟩

/-- The hover reference trajectory point: fixed position, zero velocity,
    acceleration and jerk, heading 0 and heading rate 0. -/
def hoverReference : QuadrotorTrajectoryPoint :=
  ⟨Vec3.zero, Vec3.zero, Vec3.zero, Vec3.zero, 0, 0⟩

namespace Vec3

theorem dot_zero (a : Vec3) : a.dot Vec3.zero = 0 := by
  unfold dot zero
  dsimp only
  ring

end Vec3

namespace ReferenceInputs

theorem x_C_zero_heading : x_C 0 = Vec3.mk 1 0 0 := by
  unfold x_C
  rw [Real.sin_zero, Real.cos_zero]

theorem y_C_zero_heading : y_C 0 = Vec3.mk 0 1 0 := by
  unfold y_C
  rw [Real.sin_zero, Real.cos_zero, neg_zero]

theorem hover_alpha : alpha hoverStateEstimate hoverReference = Vec3.mk 0 0 9.81 := by
  rw [alpha_no_drag]
  unfold hoverReference kGravity_ Vec3.sub Vec3.zero
  dsimp only
  norm_num

theorem hover_xB : computeRobustBodyXAxis (Vec3.mk 0 0 9.81) 0 = Vec3.mk 1 0 0 := by
  have hcross : (y_C 0).cross (Vec3.mk 0 0 9.81) = Vec3.mk 9.81 0 0 := by
    rw [y_C_zero_heading]
    unfold Vec3.cross
    dsimp only
    norm_num
  have hnorm : ((y_C 0).cross (Vec3.mk 0 0 9.81)).norm = 9.81 := by
    rw [hcross]
    exact Vec3.norm_axis_x 9.81 (by norm_num)
  have hth : ¬ ((y_C 0).cross (Vec3.mk 0 0 9.81)).norm < kAlmostZeroValueThreshold_ := by
    rw [hnorm]
    unfold kAlmostZeroValueThreshold_
    norm_num
  unfold computeRobustBodyXAxis
  rw [if_neg hth]
  unfold Vec3.normalize
  rw [hnorm, hcross]
  unfold Vec3.smul
  dsimp only
  norm_num

theorem hover_yB :
    computeRobustBodyYAxis (Vec3.mk 0 0 9.81) (Vec3.mk 1 0 0) 0 = Vec3.mk 0 1 0 := by
  have hcross : (Vec3.mk 0 0 9.81).cross (Vec3.mk 1 0 0) = Vec3.mk 0 9.81 0 := by
    unfold Vec3.cross
    dsimp only
    norm_num
  have hnorm : ((Vec3.mk 0 0 9.81).cross (Vec3.mk 1 0 0)).norm = 9.81 := by
    rw [hcross]
    exact Vec3.norm_axis_y 9.81 (by norm_num)
  have hth : ¬ ((Vec3.mk 0 0 9.81).cross (Vec3.mk 1 0 0)).norm
      < kAlmostZeroValueThreshold_ := by
    rw [hnorm]
    unfold kAlmostZeroValueThreshold_
    norm_num
  unfold computeRobustBodyYAxis
  rw [if_neg hth]
  unfold Vec3.normalize
  rw [hnorm, hcross]
  unfold Vec3.smul
  dsimp only
  norm_num

theorem hover_frame :
    computeReferenceOrientation hoverStateEstimate hoverReference =
      ⟨Vec3.mk 1 0 0, Vec3.mk 0 1 0, Vec3.mk 0 0 1⟩ := by
  have hhead : hoverReference.heading = 0 := rfl
  have hbeta : beta hoverStateEstimate hoverReference = Vec3.mk 0 0 9.81 := by
    rw [beta_eq_alpha]
    exact hover_alpha
  unfold computeReferenceOrientation
  dsimp only
  rw [hhead, hover_alpha, hbeta, hover_xB, hover_yB]
  have hcross : (Vec3.mk 1 0 0).cross (Vec3.mk 0 1 0) = Vec3.mk 0 0 1 := by
    unfold Vec3.cross
    dsimp only
    norm_num
  rw [hcross]

end ReferenceInputs

open ReferenceInputs in
/-- C6: for the hover input (reference position fixed, reference velocity,
    acceleration and jerk all zero, heading 0, state estimate at rest),
    `run` produces `z_B = (0,0,1)`, collective thrust `9.81` (the gravity
    magnitude), body rates `0` and angular acceleration `0`. -/
theorem C6_hover_command :
    (PositionController.run hoverStateEstimate hoverReference).orientation.z_B
      = Vec3.mk 0 0 1 ∧
    (PositionController.run hoverStateEstimate hoverReference).collective_thrust
      = 9.81 ∧
    (PositionController.run hoverStateEstimate hoverReference).bodyrates
      = Vec3.zero ∧
    (PositionController.run hoverStateEstimate hoverReference).angular_acceleration
      = Vec3.zero := by
  have hframe := hover_frame
  have hthrust : collectiveThrust hoverStateEstimate hoverReference = 9.81 := by
    unfold collectiveThrust
    rw [hover_alpha, hframe]
    unfold Vec3.dot
    dsimp only
    norm_num
  have hrates : referenceBodyrates hoverStateEstimate hoverReference = Vec3.zero := by
    unfold referenceBodyrates
    dsimp only
    rw [hframe, hthrust]
    have hjerk : hoverReference.jerk = Vec3.zero := rfl
    have hrate : hoverReference.heading_rate = 0 := rfl
    rw [hjerk, hrate, Vec3.dot_zero, Vec3.dot_zero]
    unfold Vec3.zero
    dsimp only
    norm_num
  refine ⟨?_, ?_, ?_, rfl⟩
  · show (computeReferenceOrientation hoverStateEstimate hoverReference).z_B
      = Vec3.mk 0 0 1
    rw [hframe]
  · exact hthrust
  · exact hrates

/-- C7: `PositionController::run` is a pure, deterministic function of its
    two inputs: two invocations with identical (state estimate, reference
    trajectory point) inputs return identical control commands; the
    embedding retains no state across invocations. -/
theorem C7_run_pure (se : QuadrotorStateEstimate) (rs : QuadrotorTrajectoryPoint)
    (c1 c2 : QuadrotorControlCommand)
    (h1 : c1 = PositionController.run se rs)
    (h2 : c2 = PositionController.run se rs) : c1 = c2 :=
  h1.trans h2.symm

/-- Witness for C7: two invocations on the hover input agree. -/
theorem C7_run_pure_witness :
    PositionController.run hoverStateEstimate hoverReference =
      PositionController.run hoverStateEstimate hoverReference :=
  C7_run_pure hoverStateEstimate hoverReference _ _ rfl rfl

open ReferenceInputs in
/-- C8: the singularity threshold is the single fixed positive constant
    `kAlmostZeroValueThreshold_ = 0.001`, and the same value gates both the
    `x_B` and the `y_B` fallback tests. -/
theorem C8_singularity_threshold (a b xB : Vec3) (psi : ℝ) :
    kAlmostZeroValueThreshold_ = 0.001 ∧
    0 < kAlmostZeroValueThreshold_ ∧
    (((y_C psi).cross a).norm < kAlmostZeroValueThreshold_ →
      computeRobustBodyXAxis a psi = x_C psi) ∧
    ((b.cross xB).norm < kAlmostZeroValueThreshold_ →
      computeRobustBodyYAxis b xB psi = y_C psi) := by
  refine ⟨rfl, kAlmostZeroValueThreshold_pos, fun h => ?_, fun h => ?_⟩
  · unfold computeRobustBodyXAxis
    rw [if_pos h]
  · unfold computeRobustBodyYAxis
    rw [if_pos h]

open ReferenceInputs in
/-- Witness for C8: at zero vectors both fallback tests fire. -/
theorem C8_singularity_threshold_witness :
    computeRobustBodyXAxis Vec3.zero 0 = x_C 0 ∧
    computeRobustBodyYAxis Vec3.zero Vec3.zero 0 = y_C 0 := by
  have hx : ((y_C 0).cross Vec3.zero).norm < kAlmostZeroValueThreshold_ := by
    rw [Vec3.cross_zero, Vec3.norm_zero_vec]
    exact kAlmostZeroValueThreshold_pos
  have hy : (Vec3.zero.cross Vec3.zero).norm < kAlmostZeroValueThreshold_ := by
    rw [Vec3.zero_cross, Vec3.norm_zero_vec]
    exact kAlmostZeroValueThreshold_pos
  exact ⟨(C8_singularity_threshold Vec3.zero Vec3.zero Vec3.zero 0).2.2.1 hx,
    (C8_singularity_threshold Vec3.zero Vec3.zero Vec3.zero 0).2.2.2 hy⟩

open ReferenceInputs in
/-- C9: the gravity constant used in the flatness inversion is the fixed
    world-frame vector `(0, 0, -9.81)`, acting in the negative `z_W`
    direction, and `alpha` subtracts it in every invocation. -/
theorem C9_gravity_constant (se : QuadrotorStateEstimate)
    (rs : QuadrotorTrajectoryPoint) :
    kGravity_ = Vec3.mk 0 0 (-9.81) ∧
    kGravity_.x = 0 ∧ kGravity_.y = 0 ∧ kGravity_.z < 0 ∧
    alpha se rs =
      (rs.acceleration.sub kGravity_).sub (dragTerm se.orientation rs.velocity) := by
  refine ⟨rfl, rfl, rfl, ?_, rfl⟩
  show (Vec3.mk 0 0 (-9.81)).z < 0
  dsimp only
  norm_num

open ReferenceInputs in
/-- C10: the rotor-drag coefficients `dx, dy, dz` are all initialized to 0,
    so the drag-compensation term is identically zero and
    `alpha = reference.acceleration - gravity` for every input, independent
    of the reference velocity and of the state estimate's orientation. -/
theorem C10_zero_drag_coefficients (se : QuadrotorStateEstimate)
    (rs : QuadrotorTrajectoryPoint) :
    dx = 0 ∧ dy = 0 ∧ dz = 0 ∧
    dragTerm se.orientation rs.velocity = Vec3.zero ∧
    alpha se rs = rs.acceleration.sub kGravity_ :=
  ⟨rfl, rfl, rfl, dragTerm_eq_zero _ _, alpha_no_drag se rs⟩
